import Mathlib

/-!
Verification of the Hebrew call-center pipeline (hebrew_call_center).

Shallow embedding of the per-message processing pipeline and session
orchestration from `src/hebrew_call_center/crew.py` and the three stage
wrappers in `src/hebrew_call_center/tools/{nikud_tool,tts_tool,stt_tool}.py`.

External dependencies (the Phonikud diacritization model, the Chatterbox
TTS engine, the Whisper transcriber, filesystem and uuid state) are
modelled as explicit environment records: a `Bool` for each availability
check the code performs, and an `Except String _`-valued oracle for each
external call that can either return a value or raise an exception
(`Except.error e` carries the exception message `str(e)`).

Python's truthiness test on strings (`if not s`) and on optional ints
(`if step_number:`) is embedded explicitly: a string is falsy iff empty,
`step_number` is falsy iff it is `None` or `0`.  Python's
`not s or not s.strip()` test is embedded as `isBlank s` (all characters
whitespace, which also covers the empty string).
-/

namespace HebrewCallCenter

/-- Python's `not s or not s.strip()`: `s` is empty or whitespace-only. -/
def isBlank (s : String) : Bool :=
  s.data.all (fun c => c.isWhitespace)

/-! ## Diacritization stage: `tools/nikud_tool.py`, `add_nikud_to_hebrew_text_impl` -/

/-- Environment of the diacritization stage: whether importing `Phonikud`
from `phonikud_tts` succeeds, whether `os.path.exists(model_path)` holds,
and the combined `Phonikud(model_path)` construction + `model.add_diacritics`
call, which either returns the vocalized text or raises. -/
structure NikudEnv where
  importOk : Bool
  modelExists : Bool
  addDiacritics : String → Except String String

/-- Embedding of `add_nikud_to_hebrew_text_impl` (nikud_tool.py lines 16-62):
a failed library import returns the input (the `except ImportError` arm), a
missing model file returns the input, a model exception returns the
`[NIKUD ERROR]` marker, otherwise the model output is returned. -/
def add_nikud_to_hebrew_text_impl (env : NikudEnv) (text : String) : String :=
  if env.importOk = false then text
  else if env.modelExists = false then text
  else
    match env.addDiacritics text with
    | Except.ok v => v
    | Except.error e => "[NIKUD ERROR] " ++ e

/-! ## Speech synthesis stage: `tools/tts_tool.py` -/

/-- Environment of the synthesis stage: whether `initialize_chatterbox`
left a loaded model (`chatterbox_model is not None`), whether the module's
`phonikud_model` is loaded, that model's `add_diacritics` call, the primary
`chatterbox_model.generate` + `ta.save` sequence (which may raise), the hex
digest produced by `uuid.uuid4().hex` for this call, and the `wave`-module
write of the fallback file (which may raise). -/
structure TTSEnv where
  chatterboxAvailable : Bool
  phonikudLoaded : Bool
  phonikudDiacritics : String → Except String String
  primary : String → Except String Unit
  uuidHex : String
  fallbackWrite : Except String Unit

/-- Content of the silent WAV file written by `_fallback_tts`
(tts_tool.py lines 125-143): mono, 16-bit samples, 16000 Hz,
`16000 * 2` zero samples. -/
structure WavSpec where
  nchannels : Nat
  sampwidth : Nat
  framerate : Nat
  samples : List Int

/-- The artifact `_fallback_tts` writes whenever the `wave` write succeeds. -/
def fallbackWav : WavSpec :=
  { nchannels := 1
    sampwidth := 2
    framerate := 16000
    samples := List.replicate (16000 * 2) 0 }

/-- Embedding of `_fallback_tts` (tts_tool.py lines 121-150).  The filename
is keyed by the Python truthiness of `step_number` (`if step_number:`), so
`None` and `0` both select the uuid-based name; a `wave`-write exception
yields the `[FALLBACK TTS ERROR]` marker string. -/
def fallback_tts (env : TTSEnv) (_text : String) (step_number : Option Int) : String :=
  let filename :=
    match step_number with
    | some n =>
        if n ≠ 0 then "output/audio_step_" ++ toString n ++ "_fallback.wav"
        else "output/tts_silent_" ++ env.uuidHex ++ ".wav"
    | none => "output/tts_silent_" ++ env.uuidHex ++ ".wav"
  match env.fallbackWrite with
  | Except.ok _ => filename
  | Except.error e => "[FALLBACK TTS ERROR] " ++ e

/-- The text handed to `chatterbox_model.generate` (tts_tool.py lines 89-97):
the module-level `phonikud_model`'s diacritics if loaded and successful,
otherwise the input unchanged. -/
def processedText (env : TTSEnv) (text : String) : String :=
  if env.phonikudLoaded then
    match env.phonikudDiacritics text with
    | Except.ok v => v
    | Except.error _ => text
  else text

/-- Embedding of `convert_hebrew_text_to_speech_impl` (tts_tool.py lines
77-119): with no Chatterbox model the silent fallback runs; otherwise the
primary generate+save either succeeds (filename keyed by the truthiness of
`step_number`) or raises into the fallback. -/
def convert_hebrew_text_to_speech_impl (env : TTSEnv) (text : String)
    (step_number : Option Int) : String :=
  if env.chatterboxAvailable = false then fallback_tts env text step_number
  else
    match env.primary (processedText env text) with
    | Except.ok _ =>
        (match step_number with
         | some n =>
             if n ≠ 0 then "output/audio_step_" ++ toString n ++ ".wav"
             else "output/tts_" ++ env.uuidHex ++ ".wav"
         | none => "output/tts_" ++ env.uuidHex ++ ".wav")
    | Except.error _ => fallback_tts env text step_number

/-! ## Transcription stage: `tools/stt_tool.py`, `transcribe_hebrew_audio_to_text_impl` -/

/-- Environment of the transcription stage: `os.path.exists`, whether the
module-level Whisper model loaded, whether `shutil.which("ffmpeg")` found
the decoder, and the `whisper_model.transcribe` call returning
`result["text"]` or raising. -/
structure STTEnv where
  fileExists : String → Bool
  whisperLoaded : Bool
  ffmpegAvailable : Bool
  transcribeRaw : String → Except String String

/-- Embedding of `transcribe_hebrew_audio_to_text_impl` (stt_tool.py lines
25-62): each failed precondition short-circuits to the empty string, an
inference exception is caught to the empty string, and a successful result
is returned stripped. -/
def transcribe_hebrew_audio_to_text_impl (env : STTEnv) (audio_file_path : String) : String :=
  if env.fileExists audio_file_path = false then ""
  else if env.whisperLoaded = false then ""
  else if env.ffmpegAvailable = false then ""
  else
    match env.transcribeRaw audio_file_path with
    | Except.ok t => t.trim
    | Except.error _ => ""

/-! ## Message pipeline orchestrator: `crew.py`, `process_hebrew_message` -/

/-- The dictionary returned by `process_hebrew_message`: the success dict
carries `original/nikud/audio_file/transcribed/status`, the failure dict
carries `original/error/status`; absent keys are `none`. -/
structure MessageResult where
  original : String
  nikud : Option String
  audio_file : Option String
  transcribed : Option String
  status : String
  error : Option String
deriving DecidableEq, Repr

/-- Stage oracles as seen by `process_hebrew_message`: each of the three
stage calls and the transcript-log call either returns a string or raises
an exception that the orchestrator's defensive `except Exception` catches.
The concrete stage implementations above never raise (their bodies are
fully wrapped in try/except); `Env.pipeline` below lifts them into
always-`ok` oracles. -/
structure PipelineEnv where
  nikud : String → Except String String
  tts : String → Option Int → Except String String
  stt : String → Except String String
  logStep : Int → String → String → String → String → String → Except String String

/-- The failure dictionary built in the `except` arm of
`process_hebrew_message` (crew.py lines 227-236). -/
def failed_result (text : String) (step_num : Int) (e : String) : MessageResult :=
  { original := text
    nikud := none
    audio_file := none
    transcribed := none
    status := "failed"
    error := some ("Error processing message " ++ toString step_num ++ ": " ++ e) }

/-- Embedding of `process_hebrew_message` (crew.py lines 193-236): nikud,
then TTS on the nikud text with the step number, then STT on the audio
path; a blank transcription is replaced by `nikud_text or text`; the step
is logged; any exception from the four calls produces the failed result. -/
def process_hebrew_message (env : PipelineEnv) (text speaker : String)
    (step_num : Int) : MessageResult :=
  match env.nikud text with
  | Except.error e => failed_result text step_num e
  | Except.ok nikud_text =>
    match env.tts nikud_text (some step_num) with
    | Except.error e => failed_result text step_num e
    | Except.ok audio_file =>
      match env.stt audio_file with
      | Except.error e => failed_result text step_num e
      | Except.ok t0 =>
        let transcribed_text :=
          if isBlank t0 then (if nikud_text = "" then text else nikud_text) else t0
        match env.logStep step_num speaker text nikud_text audio_file transcribed_text with
        | Except.error e => failed_result text step_num e
        | Except.ok _ =>
          { original := text
            nikud := some nikud_text
            audio_file := some audio_file
            transcribed := some transcribed_text
            status := "success"
            error := none }

/-- The full external environment of one run: one record per stage.  The
transcript logger `log_conversation_step_impl` is total (it catches all of
its own exceptions and returns a marker string), so it is lifted as an
always-`ok` oracle. -/
structure Env where
  nikudEnv : NikudEnv
  ttsEnv : TTSEnv
  sttEnv : STTEnv

/-- The stage oracles actually wired into `process_hebrew_message` by
crew.py: the three `_impl` functions, none of which raises. -/
def Env.pipeline (e : Env) : PipelineEnv :=
  { nikud := fun t => Except.ok (add_nikud_to_hebrew_text_impl e.nikudEnv t)
    tts := fun t sn => Except.ok (convert_hebrew_text_to_speech_impl e.ttsEnv t sn)
    stt := fun p => Except.ok (transcribe_hebrew_audio_to_text_impl e.sttEnv p)
    logStep := fun _ _ _ _ _ _ => Except.ok "logged" }

/-- `process_hebrew_message` with the concrete stage implementations. -/
def processConcrete (e : Env) (text speaker : String) (step_num : Int) : MessageResult :=
  process_hebrew_message e.pipeline text speaker step_num

/-! ## Call session orchestrator: `crew.py`, `run_conversation_simulation` -/

/-- One entry of the hardcoded `conversation_script`. -/
structure DialogueTurn where
  speaker : String
  text : String
deriving DecidableEq, Repr

/-- The fixed six-turn conversation script (crew.py lines 246-253). -/
def conversation_script : List DialogueTurn :=
  [ { speaker := "customer", text := "שלום, אני רוצה לבטל את המנוי לטלוויזיה שלי" }
  , { speaker := "support", text := "שלום, אני מבין שאתה רוצה לבטל את המנוי. האם אתה יכול להסביר לי מה הבעיה?" }
  , { speaker := "customer", text := "החשבונות יקרים מדי והשירות לא טוב" }
  , { speaker := "support", text := "אני מבין את הבעיה. בואו נראה איך אפשר לעזור לך. יש לנו הצעות מיוחדות" }
  , { speaker := "customer", text := "לא מעוניין, אני רוצה לבטל עכשיו" }
  , { speaker := "support", text := "בסדר, אני אעבד את הביטול. תקבל אישור במייל תוך 24 שעות" } ]

/-- The `for i, step in enumerate(script[:max_turns], 1)` loop of
`run_conversation_simulation` (crew.py lines 258-269): each turn is
processed with its 1-based counter, the result is appended, and the loop
breaks right after appending a failed result. -/
def processTurns (env : PipelineEnv) : List DialogueTurn → Int → List MessageResult
  | [], _ => []
  | turn :: rest, i =>
    if (process_hebrew_message env turn.text turn.speaker i).status = "failed"
    then [process_hebrew_message env turn.text turn.speaker i]
    else process_hebrew_message env turn.text turn.speaker i :: processTurns env rest (i + 1)

/-- The arguments passed to `create_call_summary_impl`
(crew.py lines 275-281). -/
structure CallSummary where
  total_steps : Nat
  outcome : String
  customer_satisfaction : String
  issues_resolved : Bool
  additional_notes : String
deriving DecidableEq, Repr

/-- The dictionary returned by `run_conversation_simulation` on its normal
path, together with the summary record it logged. -/
structure RunResult where
  status : String
  total_steps : Nat
  successful_steps : Nat
  outcome : String
  results : List MessageResult
  summary : CallSummary
deriving DecidableEq, Repr

/-- Embedding of `run_conversation_simulation` (crew.py lines 238-301) on
its completed path, with `max_turns = int(os.getenv("MAX_CONVERSATION_TURNS",
"6"))` as the parameter `max_turns`.  The session-level `except` arm is
unreachable in this embedding because every call in the loop body is total. -/
def run_conversation_simulation (env : PipelineEnv) (max_turns : Nat) : RunResult :=
  let results := processTurns env (conversation_script.take max_turns) 1
  let successful_steps := results.countP (fun r => r.status == "success")
  let outcome := if 4 ≤ successful_steps then "Cancellation processed" else "Call incomplete"
  { status := "completed"
    total_steps := results.length
    successful_steps := successful_steps
    outcome := outcome
    results := results
    summary :=
      { total_steps := results.length
        outcome := outcome
        customer_satisfaction := if 4 ≤ successful_steps then "Resolved" else "Unresolved"
        issues_resolved := decide (4 ≤ successful_steps)
        additional_notes :=
          "Processed " ++ toString successful_steps ++ "/" ++ toString results.length
            ++ " steps successfully" } }

/-! ## Theorems -/

/-- C7: for every input text, `add_nikud_to_hebrew_text_impl` returns a
(non-null) string, and whenever the configured model artifact path does not
exist on disk or the underlying library cannot be imported, the return
value equals the input text exactly. -/
theorem add_nikud_degrades_to_identity (env : NikudEnv) (text : String)
    (h : env.importOk = false ∨ env.modelExists = false) :
    add_nikud_to_hebrew_text_impl env text = text := by
  rcases h with h | h
  · simp [add_nikud_to_hebrew_text_impl, h]
  · unfold add_nikud_to_hebrew_text_impl
    rcases hi : env.importOk with _ | _ <;> simp [h]

/-- Witness for C7: a concrete environment with a missing model artifact
returns the input of a concrete call unchanged. -/
theorem add_nikud_degrades_to_identity_witness :
    (⟨true, false, fun _ => Except.error "boom"⟩ : NikudEnv).modelExists = false ∧
    add_nikud_to_hebrew_text_impl ⟨true, false, fun _ => Except.error "boom"⟩ "שלום" = "שלום" :=
  ⟨rfl, add_nikud_degrades_to_identity _ "שלום" (Or.inr rfl)⟩

/-- C8: `transcribe_hebrew_audio_to_text_impl` is a total function (the
embedding never raises), and it returns the empty string whenever the
audio path does not refer to an existing file, and also whenever the
inference call raises. -/
theorem transcribe_absorbs_failures (env : STTEnv) (audio_file_path : String)
    (h : env.fileExists audio_file_path = false ∨
         ∃ e, env.transcribeRaw audio_file_path = Except.error e) :
    transcribe_hebrew_audio_to_text_impl env audio_file_path = "" := by
  unfold transcribe_hebrew_audio_to_text_impl
  rcases h with h | ⟨e, he⟩
  · simp [h]
  · rcases hf : env.fileExists audio_file_path with _ | _
    · simp
    · rcases hw : env.whisperLoaded with _ | _
      · simp
      · rcases hm : env.ffmpegAvailable with _ | _
        · simp
        · simp [he]

/-- Witness for C8: a concrete environment in which the file-existence
check fails yields the empty transcription at a concrete path. -/
theorem transcribe_absorbs_failures_witness :
    (⟨fun _ => false, true, true, fun _ => Except.ok "x"⟩ : STTEnv).fileExists "missing.wav" = false ∧
    transcribe_hebrew_audio_to_text_impl
      ⟨fun _ => false, true, true, fun _ => Except.ok "x"⟩ "missing.wav" = "" :=
  ⟨rfl, transcribe_absorbs_failures _ "missing.wav" (Or.inl rfl)⟩

/-- C9: both the primary path and the fallback path of the synthesis stage
test the Python truthiness of `step_number`, so a call with `step_number = 0`
behaves exactly like a call with no step number: the resulting filename is
the uuid-based variant, never `audio_step_0.wav` / `audio_step_0_fallback.wav`. -/
theorem tts_step_zero_treated_as_absent (env : TTSEnv) (text : String) :
    convert_hebrew_text_to_speech_impl env text (some 0)
      = convert_hebrew_text_to_speech_impl env text none ∧
    fallback_tts env text (some 0) = fallback_tts env text none ∧
    (env.fallbackWrite = Except.ok () →
      fallback_tts env text (some 0) = "output/tts_silent_" ++ env.uuidHex ++ ".wav") := by
  refine ⟨?_, ?_, ?_⟩
  · unfold convert_hebrew_text_to_speech_impl
    rcases env.chatterboxAvailable with _ | _
    · simp [fallback_tts]
    · rcases env.primary (processedText env text) with _ | _ <;> simp [fallback_tts]
  · simp [fallback_tts]
  · intro h; simp [fallback_tts, h]

/-- Witness for C9: a concrete fully-available environment with step
number `0` produces the uuid-based filename, and so does the fallback in a
concrete unavailable environment. -/
theorem tts_step_zero_treated_as_absent_witness :
    convert_hebrew_text_to_speech_impl
        ⟨true, false, fun _ => Except.error "na", fun _ => Except.ok (), "abcd", Except.ok ()⟩
        "שלום" (some 0)
      = convert_hebrew_text_to_speech_impl
        ⟨true, false, fun _ => Except.error "na", fun _ => Except.ok (), "abcd", Except.ok ()⟩
        "שלום" none ∧
    fallback_tts
        ⟨true, false, fun _ => Except.error "na", fun _ => Except.ok (), "abcd", Except.ok ()⟩
        "שלום" (some 0)
      = "output/tts_silent_abcd.wav" :=
  ⟨(tts_step_zero_treated_as_absent _ "שלום").1,
   (tts_step_zero_treated_as_absent _ "שלום").2.2 rfl⟩

/-- A synthesis environment in which the Chatterbox model failed to load
and the silent-fallback write succeeds. -/
def ttsDownEnv : TTSEnv :=
  ⟨false, false, fun _ => Except.error "na", fun _ => Except.error "na", "0f3a", Except.ok ()⟩

/-- C6 amended: the synthesis stage is total, and whenever the primary TTS
engine is unavailable or throws it returns the silent-fallback path —
`audio_step_{n}_fallback.wav` for a nonzero step number, the uuid-based
`tts_silent_{uuid}.wav` when the step number is absent or `0` — and the
written artifact is a single-channel 16 kHz silent WAV of fixed duration;
only if the fallback write itself raises is the error-marker string
returned instead of a path. -/
theorem tts_fallback_guarantee (env : TTSEnv) (text : String) (sn : Option Int)
    (h : env.chatterboxAvailable = false ∨
         ∃ e, env.primary (processedText env text) = Except.error e) :
    convert_hebrew_text_to_speech_impl env text sn = fallback_tts env text sn ∧
    (env.fallbackWrite = Except.ok () →
      convert_hebrew_text_to_speech_impl env text sn =
        match sn with
        | some n =>
            if n ≠ 0 then "output/audio_step_" ++ toString n ++ "_fallback.wav"
            else "output/tts_silent_" ++ env.uuidHex ++ ".wav"
        | none => "output/tts_silent_" ++ env.uuidHex ++ ".wav") ∧
    (∀ e, env.fallbackWrite = Except.error e →
      convert_hebrew_text_to_speech_impl env text sn = "[FALLBACK TTS ERROR] " ++ e) ∧
    fallbackWav.nchannels = 1 ∧
    fallbackWav.framerate = 16000 ∧
    fallbackWav.samples.length = 2 * fallbackWav.framerate ∧
    ∀ s ∈ fallbackWav.samples, s = 0 := by
  have heq : convert_hebrew_text_to_speech_impl env text sn = fallback_tts env text sn := by
    unfold convert_hebrew_text_to_speech_impl
    rcases h with h | ⟨e, he⟩
    · simp [h]
    · rcases hc : env.chatterboxAvailable with _ | _
      · simp
      · simp [he]
  refine ⟨heq, ?_, ?_, rfl, rfl, ?_, ?_⟩
  · intro hw
    rw [heq]
    rcases sn with _ | n <;> simp [fallback_tts, hw]
  · intro e hw
    rw [heq]
    rcases sn with _ | n <;> simp [fallback_tts, hw]
  · simp only [fallbackWav, List.length_replicate]
  · intro s hs
    exact List.eq_of_mem_replicate hs

/-- C6 counterexample: with step number `0` supplied and the primary engine
unavailable, the fallback file is the uuid-based `tts_silent_{uuid}.wav`,
not `audio_step_0_fallback.wav` as the claim's filename clause states. -/
theorem tts_fallback_counterexample :
    convert_hebrew_text_to_speech_impl ttsDownEnv "שלום" (some 0)
      = "output/tts_silent_0f3a.wav" ∧
    convert_hebrew_text_to_speech_impl ttsDownEnv "שלום" (some 0)
      ≠ "output/audio_step_0_fallback.wav" := by
  constructor <;> decide

/-- Witness for C6: in a concrete engine-down environment with step number
`3`, the result is the fallback path `audio_step_3_fallback.wav`. -/
theorem tts_fallback_guarantee_witness :
    ttsDownEnv.chatterboxAvailable = false ∧
    convert_hebrew_text_to_speech_impl ttsDownEnv "טקסט" (some 3)
      = fallback_tts ttsDownEnv "טקסט" (some 3) ∧
    fallback_tts ttsDownEnv "טקסט" (some 3) = "output/audio_step_3_fallback.wav" :=
  ⟨rfl, (tts_fallback_guarantee ttsDownEnv "טקסט" (some 3) (Or.inl rfl)).1, by decide⟩

/-! ## Pipeline invariants (C1, C2) -/

/-- A string with a non-whitespace character stays non-blank after
appending any suffix. -/
theorem isBlank_append_left (s t : String) (h : isBlank s = false) :
    isBlank (s ++ t) = false := by
  unfold isBlank at *
  rw [String.data_append, List.all_append]
  simp only [h, Bool.false_and]

/-- The nikud stage never returns a blank string when its input is not
blank and the external diacritization model never returns a blank string:
every arm returns the input, the model output, or the non-blank
`[NIKUD ERROR]` marker. -/
theorem nikud_output_not_blank (nenv : NikudEnv) (text : String)
    (h1 : isBlank text = false)
    (h2 : ∀ v, nenv.addDiacritics text = Except.ok v → isBlank v = false) :
    isBlank (add_nikud_to_hebrew_text_impl nenv text) = false := by
  unfold add_nikud_to_hebrew_text_impl
  split_ifs with hi hm
  · exact h1
  · exact h1
  · cases hd : nenv.addDiacritics text with
    | ok v => exact h2 v hd
    | error e => exact isBlank_append_left _ _ (by decide)

/-- C1 amended: with the concrete stage implementations, every returned
`MessageResult` has `status = success` with `nikud`, `audio_file` and
`transcribed` all present; and provided the input text is not empty or
whitespace-only and the external diacritization model never returns a
whitespace-only string for it, the `transcribed` field is non-empty and
not whitespace-only. -/
theorem processMessage_success_invariant (e : Env) (text speaker : String) (i : Int)
    (h1 : isBlank text = false)
    (h2 : ∀ v, e.nikudEnv.addDiacritics text = Except.ok v → isBlank v = false) :
    (processConcrete e text speaker i).status = "success" ∧
    (processConcrete e text speaker i).nikud.isSome = true ∧
    (processConcrete e text speaker i).audio_file.isSome = true ∧
    ∃ t, (processConcrete e text speaker i).transcribed = some t ∧ isBlank t = false := by
  have hnk := nikud_output_not_blank e.nikudEnv text h1 h2
  unfold processConcrete process_hebrew_message Env.pipeline
  dsimp only
  refine ⟨rfl, rfl, rfl, ?_⟩
  by_cases hb :
      isBlank (transcribe_hebrew_audio_to_text_impl e.sttEnv
        (convert_hebrew_text_to_speech_impl e.ttsEnv
          (add_nikud_to_hebrew_text_impl e.nikudEnv text) (some i))) = true
  · have hne : add_nikud_to_hebrew_text_impl e.nikudEnv text ≠ "" := by
      intro h
      rw [h] at hnk
      exact absurd hnk (by decide)
    exact ⟨add_nikud_to_hebrew_text_impl e.nikudEnv text, by simp [hb, hne], hnk⟩
  · refine ⟨transcribe_hebrew_audio_to_text_impl e.sttEnv
      (convert_hebrew_text_to_speech_impl e.ttsEnv
        (add_nikud_to_hebrew_text_impl e.nikudEnv text) (some i)), by simp [hb], ?_⟩
    simpa using hb

/-- A fully degraded environment: no diacritization library, no TTS
engine (silent fallback succeeds), Whisper model failed to load. -/
def degradedEnv : Env :=
  { nikudEnv := ⟨false, false, fun _ => Except.error "na"⟩
    ttsEnv := ⟨false, false, fun _ => Except.error "na", fun _ => Except.error "na", "aa", Except.ok ()⟩
    sttEnv := ⟨fun _ => true, false, true, fun _ => Except.error "na"⟩ }

/-- C1 counterexample: on the whitespace-only input text `" "` in a fully
degraded (but realizable) environment, the pipeline returns
`status = success` with a whitespace-only `transcribed` field. -/
theorem processMessage_success_invariant_counterexample :
    (processConcrete degradedEnv " " "customer" 1).status = "success" ∧
    (processConcrete degradedEnv " " "customer" 1).transcribed = some " " ∧
    isBlank " " = true :=
  ⟨rfl, rfl, rfl⟩

/-- An environment where the diacritization model raises during inference,
the TTS engine is down, and the Whisper model is not loaded. -/
def nikudErrEnv : Env :=
  { nikudEnv := ⟨true, true, fun _ => Except.error "inference failed"⟩
    ttsEnv := ⟨false, false, fun _ => Except.error "na", fun _ => Except.error "na", "bb", Except.ok ()⟩
    sttEnv := ⟨fun _ => true, false, true, fun _ => Except.error "na"⟩ }

/-- Witness for C1: a concrete non-blank Hebrew input in a concrete
environment yields a success result with all fields present and a
non-blank transcription. -/
theorem processMessage_success_invariant_witness :
    isBlank "שלום" = false ∧
    ((processConcrete nikudErrEnv "שלום" "customer" 1).status = "success" ∧
     (processConcrete nikudErrEnv "שלום" "customer" 1).nikud.isSome = true ∧
     (processConcrete nikudErrEnv "שלום" "customer" 1).audio_file.isSome = true ∧
     ∃ t, (processConcrete nikudErrEnv "שלום" "customer" 1).transcribed = some t ∧
       isBlank t = false) :=
  ⟨by decide,
   processMessage_success_invariant nikudErrEnv "שלום" "customer" 1 (by decide)
     (fun v h => Except.noConfusion h)⟩

/-- C2: whenever the transcription stage returns an empty or whitespace-only
string (and no stage raises), the `transcribed` field of the returned
`MessageResult` equals the diacritized text `nikud_text`, or the original
input text when `nikud_text` is itself empty. -/
theorem processMessage_stt_fallback (env : PipelineEnv) (text speaker : String) (i : Int)
    (nk af t : String)
    (hn : env.nikud text = Except.ok nk)
    (ha : env.tts nk (some i) = Except.ok af)
    (hs : env.stt af = Except.ok t)
    (hblank : isBlank t = true)
    (hl : ∃ s, env.logStep i speaker text nk af (if nk = "" then text else nk) = Except.ok s) :
    (process_hebrew_message env text speaker i).transcribed
      = some (if nk = "" then text else nk) := by
  obtain ⟨s, hls⟩ := hl
  unfold process_hebrew_message
  simp [hn, ha, hs, hblank, hls]

/-- A pipeline environment whose transcription stage returns a
whitespace-only string. -/
def blankSttEnv : PipelineEnv :=
  { nikud := fun _ => Except.ok "שָׁלוֹם"
    tts := fun _ _ => Except.ok "output/audio_step_1.wav"
    stt := fun _ => Except.ok "   "
    logStep := fun _ _ _ _ _ _ => Except.ok "logged" }

/-- Witness for C2: in a concrete environment whose transcription stage
returns `"   "`, the transcribed field falls back to the diacritized
text. -/
theorem processMessage_stt_fallback_witness :
    blankSttEnv.stt "output/audio_step_1.wav" = Except.ok "   " ∧
    isBlank "   " = true ∧
    (process_hebrew_message blankSttEnv "שלום" "customer" 1).transcribed = some "שָׁלוֹם" := by
  refine ⟨rfl, by decide, ?_⟩
  have h := processMessage_stt_fallback blankSttEnv "שלום" "customer" 1
    "שָׁלוֹם" "output/audio_step_1.wav" "   " rfl rfl rfl (by decide) ⟨"logged", rfl⟩
  simpa using h

/-! ## Session orchestration (C3, C4, C5, C10) -/

/-- Unfolding equation of `processTurns` on the empty script. -/
theorem processTurns_nil (env : PipelineEnv) (i : Int) :
    processTurns env [] i = [] := rfl

/-- Unfolding equation of `processTurns` on a non-empty script. -/
theorem processTurns_cons (env : PipelineEnv) (turn : DialogueTurn)
    (rest : List DialogueTurn) (i : Int) :
    processTurns env (turn :: rest) i
      = if (process_hebrew_message env turn.text turn.speaker i).status = "failed"
        then [process_hebrew_message env turn.text turn.speaker i]
        else process_hebrew_message env turn.text turn.speaker i
              :: processTurns env rest (i + 1) := rfl

/-- The turn loop never produces more results than it has turns. -/
theorem processTurns_length_le (env : PipelineEnv) (l : List DialogueTurn) (i : Int) :
    (processTurns env l i).length ≤ l.length := by
  induction l generalizing i with
  | nil => simp [processTurns]
  | cons turn rest ih =>
    unfold processTurns
    split_ifs with h
    · simp
    · simpa using Nat.succ_le_succ (ih (i + 1))

/-- When every turn of a prefix succeeds, the loop walks the whole prefix:
the results of `pre ++ l2` are the results of `pre` followed by the results
of `l2` started at the shifted counter, and `pre` contributes exactly one
result per turn. -/
theorem processTurns_append_ok (env : PipelineEnv) (pre l2 : List DialogueTurn) (start : Int)
    (hpre : ∀ j, (hj : j < pre.length) →
      (process_hebrew_message env ((pre.get ⟨j, hj⟩).text) ((pre.get ⟨j, hj⟩).speaker)
        (start + (j : Int))).status ≠ "failed") :
    processTurns env (pre ++ l2) start
      = processTurns env pre start ++ processTurns env l2 (start + (pre.length : Int)) ∧
    (processTurns env pre start).length = pre.length := by
  induction pre generalizing start with
  | nil => simp [processTurns]
  | cons p ps ih =>
    have h0 : (process_hebrew_message env p.text p.speaker start).status ≠ "failed" := by
      have h := hpre 0 (by simp)
      simpa using h
    have hps : ∀ j, (hj : j < ps.length) →
        (process_hebrew_message env ((ps.get ⟨j, hj⟩).text) ((ps.get ⟨j, hj⟩).speaker)
          ((start + 1) + (j : Int))).status ≠ "failed" := by
      intro j hj
      have h := hpre (j + 1) (Nat.succ_lt_succ hj)
      have harith : start + ((j + 1 : Nat) : Int) = (start + 1) + (j : Int) := by
        push_cast
        ring
      rw [harith] at h
      exact h
    obtain ⟨happ, hlen⟩ := ih (start + 1) hps
    have hshift : (start + 1) + (ps.length : Int) = start + (((p :: ps).length : Nat) : Int) := by
      push_cast [List.length_cons]
      ring
    constructor
    · rw [List.cons_append, processTurns_cons, if_neg h0, happ,
        processTurns_cons, if_neg h0, List.cons_append, hshift]
    · rw [processTurns_cons, if_neg h0]
      simp [hlen]

/-- After a succeeding prefix, the first failing turn ends the loop with
that failed result as the final appended entry, and the turns behind it
are never consumed. -/
theorem processTurns_stop (env : PipelineEnv) (pre : List DialogueTurn) (t : DialogueTurn)
    (rest : List DialogueTurn) (start : Int)
    (hpre : ∀ j, (hj : j < pre.length) →
      (process_hebrew_message env ((pre.get ⟨j, hj⟩).text) ((pre.get ⟨j, hj⟩).speaker)
        (start + (j : Int))).status ≠ "failed")
    (ht : (process_hebrew_message env t.text t.speaker
      (start + (pre.length : Int))).status = "failed") :
    processTurns env (pre ++ t :: rest) start
      = processTurns env pre start
        ++ [process_hebrew_message env t.text t.speaker (start + (pre.length : Int))] ∧
    (processTurns env pre start).length = pre.length := by
  obtain ⟨happ, hlen⟩ := processTurns_append_ok env pre (t :: rest) start hpre
  refine ⟨?_, hlen⟩
  rw [happ]
  congr 1
  rw [processTurns_cons, if_pos ht]

/-- C3: when the turns before position `i` (1-based, `i = pre.length + 1`)
all succeed and turn `i` fails, the session stops immediately: the results
sequence has exactly `i` entries, the failed result is the last one, and
the results do not depend on any turn after `i` (no pipeline stage is
invoked for later turns). -/
theorem run_early_stop (env : PipelineEnv) (k : Nat) (pre : List DialogueTurn)
    (t : DialogueTurn) (rest : List DialogueTurn)
    (hk : conversation_script.take k = pre ++ t :: rest)
    (hpre : ∀ j, (hj : j < pre.length) →
      (process_hebrew_message env ((pre.get ⟨j, hj⟩).text) ((pre.get ⟨j, hj⟩).speaker)
        (1 + (j : Int))).status ≠ "failed")
    (ht : (process_hebrew_message env t.text t.speaker
      (1 + (pre.length : Int))).status = "failed") :
    (run_conversation_simulation env k).results.length = pre.length + 1 ∧
    (run_conversation_simulation env k).results.getLast?
      = some (process_hebrew_message env t.text t.speaker (1 + (pre.length : Int))) ∧
    ∀ rest2, processTurns env (pre ++ t :: rest2) 1
      = (run_conversation_simulation env k).results := by
  have hres : (run_conversation_simulation env k).results
      = processTurns env (pre ++ t :: rest) 1 := by
    show processTurns env (conversation_script.take k) 1 = _
    rw [hk]
  obtain ⟨heq, hlen⟩ := processTurns_stop env pre t rest 1 hpre ht
  refine ⟨?_, ?_, ?_⟩
  · rw [hres, heq]
    simp [hlen]
  · rw [hres, heq]
    exact List.getLast?_concat _
  · intro rest2
    obtain ⟨heq2, _⟩ := processTurns_stop env pre t rest2 1 hpre ht
    rw [hres, heq, heq2]

/-- A pipeline environment whose diacritization stage raises on every
input, so the first processed turn already fails. -/
def failAllEnv : PipelineEnv :=
  { nikud := fun _ => Except.error "model exploded"
    tts := fun _ _ => Except.ok "output/a.wav"
    stt := fun _ => Except.ok "t"
    logStep := fun _ _ _ _ _ _ => Except.ok "logged" }

/-- Witness for C3: with a first-turn failure the session returns exactly
one result, the failed one. -/
theorem run_early_stop_witness :
    (process_hebrew_message failAllEnv
        "שלום, אני רוצה לבטל את המנוי לטלוויזיה שלי" "customer" 1).status = "failed" ∧
    (run_conversation_simulation failAllEnv 6).results.length = 1 ∧
    (run_conversation_simulation failAllEnv 6).results.getLast?
      = some (process_hebrew_message failAllEnv
          "שלום, אני רוצה לבטל את המנוי לטלוויזיה שלי" "customer" 1) := by
  have h := run_early_stop failAllEnv 6 []
      ⟨"customer", "שלום, אני רוצה לבטל את המנוי לטלוויזיה שלי"⟩
      (conversation_script.drop 1) (by decide)
      (fun j hj => absurd hj (Nat.not_lt_zero j))
      (by decide)
  refine ⟨by decide, ?_, ?_⟩
  · simpa using h.1
  · simpa using h.2.1

/-- C4 amended: the session processes at most `max_turns` turns in every
run — also in runs where some step fails and the loop stops early — and
when no processed step fails it processes exactly `min max_turns 6` turns
(the hardcoded script has six turns) — in particular exactly `max_turns`
whenever `max_turns ≤ 6`, but fewer when the cap exceeds the script. -/
theorem run_turn_cap (env : PipelineEnv) (k : Nat) :
    (run_conversation_simulation env k).results.length ≤ k ∧
    ((∀ j, (hj : j < (conversation_script.take k).length) →
      (process_hebrew_message env (((conversation_script.take k).get ⟨j, hj⟩).text)
        (((conversation_script.take k).get ⟨j, hj⟩).speaker) (1 + (j : Int))).status
        ≠ "failed") →
      (run_conversation_simulation env k).results.length = min k conversation_script.length) := by
  have hres : (run_conversation_simulation env k).results
      = processTurns env (conversation_script.take k) 1 := rfl
  constructor
  · rw [hres]
    calc (processTurns env (conversation_script.take k) 1).length
        ≤ (conversation_script.take k).length := processTurns_length_le env _ 1
      _ ≤ k := by
          rw [List.length_take]
          exact Nat.min_le_left _ _
  · intro hok
    have hlen := (processTurns_append_ok env (conversation_script.take k) [] 1 hok).2
    rw [hres, hlen, List.length_take]

/-- A pipeline environment in which every stage succeeds with non-blank
transcriptions, so every turn yields a success result. -/
def allOkEnv : PipelineEnv :=
  { nikud := fun t => Except.ok t
    tts := fun _ _ => Except.ok "output/a.wav"
    stt := fun _ => Except.ok "t"
    logStep := fun _ _ _ _ _ _ => Except.ok "logged" }

/-- C4 counterexample: with cap `7` and no failing step, the session
processes only the six scripted turns, not exactly `7` as the claim
states. -/
theorem run_turn_cap_counterexample :
    (run_conversation_simulation allOkEnv 7).results.length = 6 ∧
    ((run_conversation_simulation allOkEnv 7).results.all
      (fun r => r.status == "success")) = true ∧
    (run_conversation_simulation allOkEnv 7).results.length ≠ 7 := by
  refine ⟨by decide, by decide, by decide⟩

/-- Witness for C4: with cap `2` and no failing step, at most and exactly
two turns are processed; and the at-most bound also holds in a concrete
run whose first turn fails. -/
theorem run_turn_cap_witness :
    (run_conversation_simulation allOkEnv 2).results.length ≤ 2 ∧
    (run_conversation_simulation allOkEnv 2).results.length
      = min 2 conversation_script.length ∧
    (run_conversation_simulation failAllEnv 3).results.length ≤ 3 :=
  ⟨(run_turn_cap allOkEnv 2).1, (run_turn_cap allOkEnv 2).2 (by decide),
   (run_turn_cap failAllEnv 3).1⟩

/-- C5: `successful_steps` equals the number of results with
`status = success`, and the outcome is `"Cancellation processed"` exactly
when `successful_steps ≥ 4` and `"Call incomplete"` exactly otherwise. -/
theorem run_outcome_threshold (env : PipelineEnv) (k : Nat) :
    (run_conversation_simulation env k).successful_steps
      = (run_conversation_simulation env k).results.countP (fun r => r.status == "success") ∧
    ((run_conversation_simulation env k).outcome = "Cancellation processed"
      ↔ 4 ≤ (run_conversation_simulation env k).successful_steps) ∧
    ((run_conversation_simulation env k).outcome = "Call incomplete"
      ↔ (run_conversation_simulation env k).successful_steps < 4) := by
  have hout : (run_conversation_simulation env k).outcome
      = if 4 ≤ (run_conversation_simulation env k).successful_steps
        then "Cancellation processed" else "Call incomplete" := rfl
  refine ⟨rfl, ?_, ?_⟩
  · rw [hout]
    split_ifs with h
    · exact iff_of_true rfl h
    · exact iff_of_false (by decide) h
  · rw [hout]
    split_ifs with h
    · exact iff_of_false (by decide) (by omega)
    · exact iff_of_true rfl (by omega)

/-- Witness for C5: a full six-turn all-success run crosses the threshold
and yields the `"Cancellation processed"` outcome. -/
theorem run_outcome_threshold_witness :
    (run_conversation_simulation allOkEnv 6).outcome = "Cancellation processed" ∧
    4 ≤ (run_conversation_simulation allOkEnv 6).successful_steps :=
  ⟨((run_outcome_threshold allOkEnv 6).2.1).mpr (by decide), by decide⟩

/-- C10: the call-summary fields are keyed to the same `≥ 4` threshold:
satisfaction is `"Resolved"` and `issues_resolved` is true exactly when
`successful_steps ≥ 4`, always agreeing with the outcome field, and
satisfaction is `"Unresolved"` exactly otherwise. -/
theorem run_summary_consistent (env : PipelineEnv) (k : Nat) :
    ((run_conversation_simulation env k).summary.customer_satisfaction = "Resolved"
      ↔ 4 ≤ (run_conversation_simulation env k).successful_steps) ∧
    ((run_conversation_simulation env k).summary.issues_resolved = true
      ↔ 4 ≤ (run_conversation_simulation env k).successful_steps) ∧
    ((run_conversation_simulation env k).summary.customer_satisfaction = "Resolved"
      ↔ (run_conversation_simulation env k).outcome = "Cancellation processed") ∧
    ((run_conversation_simulation env k).summary.issues_resolved = true
      ↔ (run_conversation_simulation env k).outcome = "Cancellation processed") ∧
    ((run_conversation_simulation env k).summary.customer_satisfaction = "Unresolved"
      ↔ ¬ 4 ≤ (run_conversation_simulation env k).successful_steps) := by
  have hsat : (run_conversation_simulation env k).summary.customer_satisfaction
      = if 4 ≤ (run_conversation_simulation env k).successful_steps
        then "Resolved" else "Unresolved" := rfl
  have hres : (run_conversation_simulation env k).summary.issues_resolved
      = decide (4 ≤ (run_conversation_simulation env k).successful_steps) := rfl
  have hout : (run_conversation_simulation env k).outcome
      = if 4 ≤ (run_conversation_simulation env k).successful_steps
        then "Cancellation processed" else "Call incomplete" := rfl
  by_cases h : 4 ≤ (run_conversation_simulation env k).successful_steps
  · rw [hsat, hres, hout, if_pos h, if_pos h]
    exact ⟨iff_of_true rfl h, iff_of_true (decide_eq_true h) h,
      iff_of_true rfl rfl, iff_of_true (decide_eq_true h) rfl,
      iff_of_false (by decide) (not_not_intro h)⟩
  · rw [hsat, hres, hout, if_neg h, if_neg h]
    exact ⟨iff_of_false (by decide) h,
      iff_of_false (by simp [h]) h,
      iff_of_false (by decide) (by decide),
      iff_of_false (by simp [h]) (by decide),
      iff_of_true rfl h⟩

/-- Witness for C10: a three-turn all-success run stays below the
threshold, so the summary reports `"Unresolved"` and unresolved issues. -/
theorem run_summary_consistent_witness :
    (run_conversation_simulation allOkEnv 3).summary.customer_satisfaction = "Unresolved" ∧
    (run_conversation_simulation allOkEnv 3).summary.issues_resolved = false :=
  ⟨((run_summary_consistent allOkEnv 3).2.2.2.2).mpr (by decide), by decide⟩

end HebrewCallCenter
